import Mathlib

/-!
ShowMIDI test fixtures: `SimulatedTimeProvider` and `MockMidiAdapter`.

A shallow embedding of `Tests/Fixtures/SimulatedTimeProvider.{h,cpp}`,
`Tests/Fixtures/MockMidiAdapter.{h,cpp}` and the exit code of `Tests/Main.cpp`,
and the properties of them that the specification states.

Modelling conventions

* A C++ method that mutates `*this` is a computation over the object state
  that may stop at a failed assertion: `Method σ α`.  The state of the object
  after the call is the second component of `Method.run`, also when the call
  stopped at an assertion.
* `double` is a type `F` with the operations the code uses on it (`+`, `0.0`,
  `>=`).  The only law assumed is that `>=` is a linear order, so nothing that
  is proved depends on addition being exact; `ℚ` is the instance used for
  concrete evaluation.  NaN is outside the model.  A theorem that needs a law
  of addition asks for it in its typeclass arguments.
* `int` is `Int` restricted to the 32-bit range, `++` wraps (`wrapInt32`).
* A call through a `juce::MidiInputCallback*` is recorded as an event
  (`CallbackInvocation`): which object was called and with which arguments.
  Where a property is about what the callee sees, the callee is a parameter
  (`injectMessageWith`).
-/

namespace showmidi

/-! ## Assertions and methods -/

/-- The failure raised by an assertion whose condition is false. -/
inductive AssertionFailure where
  | contractViolation
  deriving DecidableEq, Repr

/-- A method of an object with state `σ`: it returns a value or stops at a
failed assertion, and in both cases leaves an object state behind. -/
abbrev Method (σ α : Type) : Type := ExceptT AssertionFailure (StateM σ) α

/-- Run a method on the object state `self`: the outcome of the call and the
state of the object after it. -/
def Method.run {σ α : Type} (m : Method σ α) (self : σ) : Except AssertionFailure α × σ :=
  StateT.run (ExceptT.run m) self

/-- Modelled from the spec: the `jassert` macro of the JUCE framework, whose
definition is not part of the repository sources.  The spec describes it as
an assertion-style contract violation that fails fast and aborts the operation:
a true condition lets the method continue, a false one stops it there. -/
def jassert {σ : Type} (expression : Bool) : Method σ Unit :=
  if expression then pure () else throw AssertionFailure.contractViolation

/-! ## SimulatedTimeProvider -/

/-- The data member of `class SimulatedTimeProvider`: `double simulatedTime`. -/
structure SimulatedTimeProvider (F : Type) where
  simulatedTime : F
  deriving DecidableEq, Repr

namespace SimulatedTimeProvider

variable {F : Type}

/-- The constructor `SimulatedTimeProvider::SimulatedTimeProvider()`:
`simulatedTime(0.0)`. -/
def new [Zero F] : SimulatedTimeProvider F :=
  { simulatedTime := 0 }

/-- The method `double getCurrentTime() const`: `return simulatedTime;`. -/
def getCurrentTime (self : SimulatedTimeProvider F) : F :=
  self.simulatedTime

/-- The method `void advanceTime(double seconds)`:
`jassert(seconds >= 0.0); simulatedTime += seconds;`. -/
def advanceTime [LinearOrder F] [Zero F] [Add F] (seconds : F) :
    Method (SimulatedTimeProvider F) Unit := do
  jassert (decide (seconds ≥ 0))
  modify fun self => { self with simulatedTime := self.simulatedTime + seconds }

/-- The method `void reset()`: `simulatedTime = 0.0;`. -/
def reset [Zero F] : Method (SimulatedTimeProvider F) Unit :=
  modify fun self => { self with simulatedTime := 0 }

/-- The method `void setTime(double newTime)`:
`jassert(newTime >= 0.0); simulatedTime = newTime;`. -/
def setTime [LinearOrder F] [Zero F] (newTime : F) :
    Method (SimulatedTimeProvider F) Unit := do
  jassert (decide (newTime ≥ 0))
  modify fun self => { self with simulatedTime := newTime }

end SimulatedTimeProvider

/-! ## MockMidiAdapter -/

/-- Largest value of a 32-bit `int`. -/
def INT_MAX : Int := 2147483647

/-- Smallest value of a 32-bit `int`. -/
def INT_MIN : Int := -2147483648

/-- Reduce an integer to the 32-bit two's-complement range.  C++ leaves signed
overflow undefined; this is the value the increment leaves in the `int` on the
two's-complement targets the project builds for. -/
def wrapInt32 (x : Int) : Int :=
  (x + 2147483648) % 4294967296 - 2147483648

/-- Modelled from the spec: `juce::MidiMessage`, a type of the JUCE framework.
The spec describes it as an opaque immutable byte-oriented value (status byte
and data bytes). -/
structure MidiMessage where
  data : List Nat
  deriving DecidableEq, Repr

/-- The identity of a `juce::MidiInputCallback` object, the target of a
`juce::MidiInputCallback*`; the null pointer is `none : Option MidiInputCallback`. -/
structure MidiInputCallback where
  address : Nat
  deriving DecidableEq, Repr

/-- The identity of a `juce::MidiInput` device, the target of a
`juce::MidiInput*`; the null pointer is `none : Option MidiInput`. -/
structure MidiInput where
  address : Nat
  deriving DecidableEq, Repr

/-- One call `callback->handleIncomingMidiMessage(source, message)`: the object
called and the two arguments passed.  The body of the callee is code of the
caller of the fixture; it is recorded as an event and assumed not to call back
into the adapter. -/
structure CallbackInvocation where
  callback : MidiInputCallback
  source : Option MidiInput
  message : MidiMessage
  deriving DecidableEq, Repr

/-- The data members of `class MockMidiAdapter`, with their in-class
initialisers: `callback = nullptr`, `started = false`, `messageCount = 0`. -/
structure MockMidiAdapter where
  identifier : String
  callback : Option MidiInputCallback := none
  started : Bool := false
  messageCount : Int := 0
  deriving DecidableEq, Repr

namespace MockMidiAdapter

/-- The constructor `MockMidiAdapter::MockMidiAdapter(const juce::String& id)`:
`identifier(id)`, the other members take their in-class initialisers. -/
def new (id : String) : MockMidiAdapter :=
  { identifier := id }

/-- The default argument of the constructor: `identifier = "MockMIDIDevice"`. -/
def defaultIdentifier : String := "MockMIDIDevice"

/-- The method `void start()`: `started = true;`. -/
def start (self : MockMidiAdapter) : MockMidiAdapter :=
  { self with started := true }

/-- The method `void stop()`: `started = false;`. -/
def stop (self : MockMidiAdapter) : MockMidiAdapter :=
  { self with started := false }

/-- The method `bool isStarted() const`: `return started;`. -/
def isStarted (self : MockMidiAdapter) : Bool :=
  self.started

/-- The method `void injectMessage(const juce::MidiMessage& message, double timestamp)`.
Returns the adapter after the call and the callback invocations the call made,
in order.
```
if (!started) return;
++messageCount;
if (callback != nullptr) callback->handleIncomingMidiMessage(nullptr, message);
juce::ignoreUnused(timestamp);
``` -/
def injectMessage {F : Type} (self : MockMidiAdapter) (message : MidiMessage)
    (_timestamp : F) : MockMidiAdapter × List CallbackInvocation :=
  if !self.started then
    (self, [])
  else
    let self := { self with messageCount := wrapInt32 (self.messageCount + 1) }
    match self.callback with
    | some callback =>
      (self, [{ callback := callback, source := none, message := message }])
    | none => (self, [])

/-- The method `juce::String getIdentifier() const`: `return identifier;`. -/
def getIdentifier (self : MockMidiAdapter) : String :=
  self.identifier

/-- The method `void setCallback(juce::MidiInputCallback* newCallback)`:
`callback = newCallback;`. -/
def setCallback (self : MockMidiAdapter) (newCallback : Option MidiInputCallback) :
    MockMidiAdapter :=
  { self with callback := newCallback }

/-- The method `int getMessageCount() const`: `return messageCount;`. -/
def getMessageCount (self : MockMidiAdapter) : Int :=
  self.messageCount

/-- The method `void resetMessageCount()`: `messageCount = 0;`. -/
def resetMessageCount (self : MockMidiAdapter) : MockMidiAdapter :=
  { self with messageCount := 0 }

end MockMidiAdapter

/-! ## Sequences of calls on a MockMidiAdapter -/

/-- One call of a public method of `MockMidiAdapter`, with its arguments. -/
inductive Op (F : Type) where
  | start
  | stop
  | isStarted
  | injectMessage (message : MidiMessage) (timestamp : F)
  | getIdentifier
  | setCallback (newCallback : Option MidiInputCallback)
  | getMessageCount
  | resetMessageCount
  deriving DecidableEq, Repr

/-- An adapter together with every callback invocation it has made so far,
oldest first. -/
structure Session where
  adapter : MockMidiAdapter
  invocations : List CallbackInvocation
  deriving DecidableEq, Repr

namespace Session

/-- A session on a newly constructed adapter: nothing has been invoked. -/
def new (id : String) : Session :=
  { adapter := MockMidiAdapter.new id, invocations := [] }

/-- Perform one call.  The `const` methods leave the adapter as it is. -/
def step {F : Type} (w : Session) : Op F → Session
  | .start => { w with adapter := w.adapter.start }
  | .stop => { w with adapter := w.adapter.stop }
  | .isStarted => w
  | .injectMessage message timestamp =>
    let r := w.adapter.injectMessage message timestamp
    { adapter := r.1, invocations := w.invocations ++ r.2 }
  | .getIdentifier => w
  | .setCallback newCallback => { w with adapter := w.adapter.setCallback newCallback }
  | .getMessageCount => w
  | .resetMessageCount => { w with adapter := w.adapter.resetMessageCount }

/-- Perform a sequence of calls, first to last. -/
def run {F : Type} (w : Session) (ops : List (Op F)) : Session :=
  ops.foldl step w

end Session

/-- The sequence contains a `start()` call with no later `stop()` call. -/
def startedWithoutLaterStop {F : Type} (ops : List (Op F)) : Prop :=
  ∃ before after, ops = before ++ Op.start :: after ∧ Op.stop ∉ after

/-- The constructor called with no argument: the identifier is the default
argument. -/
def MockMidiAdapter.newDefault : MockMidiAdapter :=
  MockMidiAdapter.new MockMidiAdapter.defaultIdentifier

/-- Whether the operation is an `injectMessage` call. -/
def Op.isInjectMessage {F : Type} : Op F → Bool
  | .injectMessage _ _ => true
  | _ => false

/-- The number of `injectMessage` calls in the sequence. -/
def injectCalls {F : Type} (ops : List (Op F)) : Nat :=
  (ops.filter Op.isInjectMessage).length

/-- The number of `injectMessage` calls in the sequence that are made while the
adapter is started, for an adapter whose active flag is `started` before the
first call: a `start()` call makes the following calls active, a `stop()` call
makes them inactive. -/
def activeInjectCalls {F : Type} (started : Bool) : List (Op F) → Nat
  | [] => 0
  | .start :: ops => activeInjectCalls true ops
  | .stop :: ops => activeInjectCalls false ops
  | .injectMessage _ _ :: ops => (if started then 1 else 0) + activeInjectCalls started ops
  | .isStarted :: ops => activeInjectCalls started ops
  | .getIdentifier :: ops => activeInjectCalls started ops
  | .setCallback _ :: ops => activeInjectCalls started ops
  | .getMessageCount :: ops => activeInjectCalls started ops
  | .resetMessageCount :: ops => activeInjectCalls started ops

/-- An `injectMessage` call was delivered: it changed the message count or
invoked a callback. -/
def delivered (before : MockMidiAdapter)
    (result : MockMidiAdapter × List CallbackInvocation) : Prop :=
  result.1.getMessageCount ≠ before.getMessageCount ∨ result.2 ≠ []

/-! ## Sequences of calls on a SimulatedTimeProvider -/

/-- One call of a public method of `SimulatedTimeProvider`, with its argument. -/
inductive TimeOp (F : Type) where
  | getCurrentTime
  | advanceTime (seconds : F)
  | reset
  | setTime (newTime : F)
  deriving DecidableEq, Repr

namespace SimulatedTimeProvider

/-- Perform one call and keep the provider it leaves behind.  A call that stops
at its assertion leaves the provider as it was at the assertion. -/
def step {F : Type} [LinearOrder F] [Zero F] [Add F] (self : SimulatedTimeProvider F) :
    TimeOp F → SimulatedTimeProvider F
  | .getCurrentTime => self
  | .advanceTime seconds => ((advanceTime seconds).run self).2
  | .reset => ((reset : Method (SimulatedTimeProvider F) Unit).run self).2
  | .setTime newTime => ((setTime newTime).run self).2

/-- Perform a sequence of calls, first to last. -/
def runOps {F : Type} [LinearOrder F] [Zero F] [Add F] (self : SimulatedTimeProvider F)
    (ops : List (TimeOp F)) : SimulatedTimeProvider F :=
  ops.foldl step self

end SimulatedTimeProvider

/-! ## The callee of a callback invocation -/

/-- The method `injectMessage` with the body of the callee as a parameter:
`handler callback source message adapter` is what the call
`callback->handleIncomingMidiMessage(source, message)` yields when the callee
looks at the adapter as it stands at the time of the call (through the const
methods).  The statements are those of `MockMidiAdapter::injectMessage`; the
result is the adapter after the call and what each invocation yielded.
```
if (!started) return;
++messageCount;
if (callback != nullptr) callback->handleIncomingMidiMessage(nullptr, message);
juce::ignoreUnused(timestamp);
``` -/
def MockMidiAdapter.injectMessageWith {F α : Type}
    (handler : MidiInputCallback → Option MidiInput → MidiMessage → MockMidiAdapter → α)
    (self : MockMidiAdapter) (message : MidiMessage) (_timestamp : F) :
    MockMidiAdapter × List α :=
  if !self.started then
    (self, [])
  else
    let self := { self with messageCount := wrapInt32 (self.messageCount + 1) }
    match self.callback with
    | some callback => (self, [handler callback none message self])
    | none => (self, [])

/-- The callee that records the call it receives. -/
def recordInvocation (callback : MidiInputCallback) (source : Option MidiInput)
    (message : MidiMessage) (_adapter : MockMidiAdapter) : CallbackInvocation :=
  { callback := callback, source := source, message := message }

/-- The callee that reads `getMessageCount()` of the adapter during its
invocation. -/
def readMessageCount (_callback : MidiInputCallback) (_source : Option MidiInput)
    (_message : MidiMessage) (adapter : MockMidiAdapter) : Int :=
  adapter.getMessageCount

/-! ## Counting over a sequence of calls -/

/-- The number of `injectMessage` calls made while the adapter was active since
the most recent `resetMessageCount` call, or since the start of the sequence if
there was none, for an adapter whose active flag is `started` and which has
`count` such calls behind it before the first call of the sequence. -/
def countedInjectCalls {F : Type} (started : Bool) (count : Nat) : List (Op F) → Nat
  | [] => count
  | .start :: ops => countedInjectCalls true count ops
  | .stop :: ops => countedInjectCalls false count ops
  | .injectMessage _ _ :: ops =>
    countedInjectCalls started (if started then count + 1 else count) ops
  | .resetMessageCount :: ops => countedInjectCalls started 0 ops
  | .isStarted :: ops => countedInjectCalls started count ops
  | .getIdentifier :: ops => countedInjectCalls started count ops
  | .setCallback _ :: ops => countedInjectCalls started count ops
  | .getMessageCount :: ops => countedInjectCalls started count ops

/-- The number of `injectMessage` calls in the sequence made while the adapter
was active and a non-null callback was registered, for an adapter whose active
flag is `started` and whose registered callback is `callback` before the first
call. -/
def dispatchedInjectCalls {F : Type} (started : Bool)
    (callback : Option MidiInputCallback) : List (Op F) → Nat
  | [] => 0
  | .start :: ops => dispatchedInjectCalls true callback ops
  | .stop :: ops => dispatchedInjectCalls false callback ops
  | .injectMessage _ _ :: ops =>
    (if started && callback.isSome then 1 else 0) + dispatchedInjectCalls started callback ops
  | .setCallback newCallback :: ops => dispatchedInjectCalls started newCallback ops
  | .resetMessageCount :: ops => dispatchedInjectCalls started callback ops
  | .isStarted :: ops => dispatchedInjectCalls started callback ops
  | .getIdentifier :: ops => dispatchedInjectCalls started callback ops
  | .getMessageCount :: ops => dispatchedInjectCalls started callback ops

/-! ## The test runner -/

/-- An entry of the result list of `juce::UnitTestRunner`, as far as `main`
reads it: the field `int failures`. -/
structure TestResult where
  failures : Int
  deriving DecidableEq, Repr

/-- The loop of `main` over the results in index order:
```
int numFailures = 0;
for (int i = 0; i < runner.getNumResults(); ++i)
  if (runner.getResult(i)->failures > 0)
    ++numFailures;
``` -/
def countFailedResults (results : List TestResult) : Int :=
  results.foldl
    (fun numFailures result =>
      if result.failures > 0 then wrapInt32 (numFailures + 1) else numFailures)
    0

/-- The function `int main(int, char**)` of `Tests/Main.cpp`, as a function of
the results that `runner.runAllTests()` left in the runner:
`return numFailures > 0 ? 1 : 0;`. -/
def main (results : List TestResult) : Int :=
  if countFailedResults results > 0 then 1 else 0

/-! ## Concrete inputs -/

/-- The bytes of a note-on message: channel 1, note 60, velocity 102 of 127. -/
def noteOn60 : MidiMessage :=
  { data := [144, 60, 102] }

/-- The callback object registered in the concrete scenarios. -/
def testCallback : MidiInputCallback :=
  { address := 1 }

/-- A started adapter with a registered callback that has counted one message. -/
def startedWithCallback : MockMidiAdapter :=
  { identifier := "TestDevice", callback := some testCallback, started := true,
    messageCount := 1 }

/-- A started adapter with no callback that has counted one message. -/
def startedWithoutCallback : MockMidiAdapter :=
  { identifier := "TestDevice", callback := none, started := true, messageCount := 1 }

/-- A stopped adapter with a registered callback that has counted one message. -/
def stoppedWithCallback : MockMidiAdapter :=
  { identifier := "TestDevice", callback := some testCallback, started := false,
    messageCount := 1 }

/-- A started adapter with a registered callback whose counter holds the
largest `int`: the state after 2147483647 delivered messages. -/
def saturatedWithCallback : MockMidiAdapter :=
  { identifier := "TestDevice", callback := some testCallback, started := true,
    messageCount := 2147483647 }

/-- A started adapter with no callback whose counter holds the largest `int`. -/
def saturatedWithoutCallback : MockMidiAdapter :=
  { identifier := "TestDevice", callback := none, started := true,
    messageCount := 2147483647 }

/-- A second callback object, distinct from `testCallback`. -/
def otherCallback : MidiInputCallback :=
  { address := 2 }

/-! ## Properties of SimulatedTimeProvider -/

section SimulatedTime

open SimulatedTimeProvider

variable {F : Type}

theorem advanceTime_run_of_nonneg [LinearOrder F] [Zero F] [Add F]
    (self : SimulatedTimeProvider F) (seconds : F) (h : 0 ≤ seconds) :
    (advanceTime seconds).run self
      = (Except.ok (), { simulatedTime := self.simulatedTime + seconds }) := by
  simp [advanceTime, jassert, Method.run, h]
  rfl

theorem advanceTime_run_of_neg [LinearOrder F] [Zero F] [Add F]
    (self : SimulatedTimeProvider F) (seconds : F) (h : seconds < 0) :
    (advanceTime seconds).run self
      = (Except.error AssertionFailure.contractViolation, self) := by
  simp [advanceTime, jassert, Method.run, not_le.mpr h]

theorem setTime_run_of_nonneg [LinearOrder F] [Zero F]
    (self : SimulatedTimeProvider F) (newTime : F) (h : 0 ≤ newTime) :
    (setTime newTime).run self = (Except.ok (), { simulatedTime := newTime }) := by
  simp [setTime, jassert, Method.run, h]
  rfl

theorem setTime_run_of_neg [LinearOrder F] [Zero F]
    (self : SimulatedTimeProvider F) (newTime : F) (h : newTime < 0) :
    (setTime newTime).run self
      = (Except.error AssertionFailure.contractViolation, self) := by
  simp [setTime, jassert, Method.run, not_le.mpr h]

theorem reset_run [Zero F] (self : SimulatedTimeProvider F) :
    (reset : Method (SimulatedTimeProvider F) Unit).run self
      = (Except.ok (), { simulatedTime := 0 }) := by
  rfl

end SimulatedTime

/-! ## Properties of MockMidiAdapter -/

section Adapter

open MockMidiAdapter

variable {F : Type}

theorem wrapInt32_of_inRange (x : Int) (hmin : INT_MIN ≤ x) (hmax : x ≤ INT_MAX) :
    wrapInt32 x = x := by
  unfold wrapInt32
  unfold INT_MIN at hmin
  unfold INT_MAX at hmax
  omega

theorem injectMessage_of_not_started (self : MockMidiAdapter) (message : MidiMessage)
    (timestamp : F) (h : self.started = false) :
    self.injectMessage message timestamp = (self, []) := by
  simp [injectMessage, h]

theorem injectMessage_started_eq (self : MockMidiAdapter) (message : MidiMessage)
    (timestamp : F) :
    (self.injectMessage message timestamp).1.started = self.started := by
  unfold injectMessage
  cases hs : self.started <;> cases hc : self.callback <;> simp [hc, hs]

theorem step_started_of_other (w : Session) (op : Op F) (h1 : op ≠ Op.start)
    (h2 : op ≠ Op.stop) : (w.step op).adapter.started = w.adapter.started := by
  cases op with
  | start => exact absurd rfl h1
  | stop => exact absurd rfl h2
  | injectMessage message timestamp =>
    exact injectMessage_started_eq w.adapter message timestamp
  | isStarted => rfl
  | getIdentifier => rfl
  | setCallback newCallback => rfl
  | getMessageCount => rfl
  | resetMessageCount => rfl

theorem startedWithoutLaterStop_cons (op : Op F) (ops : List (Op F)) :
    startedWithoutLaterStop (op :: ops)
      ↔ (op = Op.start ∧ Op.stop ∉ ops) ∨ startedWithoutLaterStop ops := by
  constructor
  · rintro ⟨before, after, heq, hno⟩
    cases before with
    | nil =>
      simp only [List.nil_append, List.cons.injEq] at heq
      exact Or.inl ⟨heq.1, heq.2 ▸ hno⟩
    | cons b bs =>
      simp only [List.cons_append, List.cons.injEq] at heq
      exact Or.inr ⟨bs, after, heq.2, hno⟩
  · rintro (⟨hop, hno⟩ | ⟨before, after, heq, hno⟩)
    · exact ⟨[], ops, by simp [hop], hno⟩
    · exact ⟨op :: before, after, by simp [heq], hno⟩

theorem run_started_iff (ops : List (Op F)) (w : Session) :
    (w.run ops).adapter.started = true
      ↔ startedWithoutLaterStop ops ∨ (w.adapter.started = true ∧ Op.stop ∉ ops) := by
  induction ops generalizing w with
  | nil =>
    have hnil : ¬ startedWithoutLaterStop ([] : List (Op F)) := by
      rintro ⟨before, after, heq, _⟩
      cases before <;> simp at heq
    simp [Session.run, hnil]
  | cons op ops ih =>
    have hrun : w.run (op :: ops) = (w.step op).run ops := rfl
    rw [hrun, ih, startedWithoutLaterStop_cons]
    by_cases h1 : op = Op.start
    · subst h1
      simp [Session.step, MockMidiAdapter.start]
      tauto
    · by_cases h2 : op = Op.stop
      · subst h2
        simp [Session.step, MockMidiAdapter.stop]
      · rw [step_started_of_other w op h1 h2]
        have h3 : Op.stop ∉ op :: ops ↔ Op.stop ∉ ops := by
          simp [List.mem_cons, Ne.symm h2]
        rw [h3]
        simp [h1]

theorem run_injections_of_not_started (injections : List (MidiMessage × F)) (w : Session)
    (h : w.adapter.started = false) :
    w.run (injections.map fun p => Op.injectMessage p.1 p.2) = w := by
  induction injections with
  | nil => rfl
  | cons p ps ih =>
    have hstep : w.step (Op.injectMessage p.1 p.2) = w := by
      simp [Session.step, injectMessage_of_not_started w.adapter p.1 p.2 h]
    simpa [Session.run, List.foldl_cons, hstep] using ih

/-! ## Message injection -/

/-- C1 (amended): for every started adapter with a registered callback whose
counter is a 32-bit `int` below `INT_MAX`, one `injectMessage(message, timestamp)`
call increases `getMessageCount()` by exactly 1 and invokes the registered
callback exactly once, passing a null device source and the injected message
unchanged. -/
theorem C1_injectMessage_counts_and_dispatches (self : MockMidiAdapter)
    (cb : MidiInputCallback) (message : MidiMessage) (timestamp : F)
    (hstarted : self.isStarted = true) (hcb : self.callback = some cb)
    (hmin : INT_MIN ≤ self.getMessageCount) (hmax : self.getMessageCount < INT_MAX) :
    (self.injectMessage message timestamp).1.getMessageCount = self.getMessageCount + 1
      ∧ (self.injectMessage message timestamp).2
          = [{ callback := cb, source := none, message := message }] := by
  simp only [isStarted, getMessageCount] at hstarted hmin hmax
  have hwrap : wrapInt32 (self.messageCount + 1) = self.messageCount + 1 :=
    wrapInt32_of_inRange _ (by omega) (by omega)
  simp [injectMessage, getMessageCount, hstarted, hcb, hwrap]

/-- Witness of C1: the started adapter with a callback and one counted message
counts a second one and dispatches the note-on to the callback once. -/
theorem C1_injectMessage_counts_and_dispatches_witness :
    startedWithCallback.isStarted = true
      ∧ (startedWithCallback.injectMessage noteOn60 (0 : ℚ)).1.getMessageCount = 2
      ∧ (startedWithCallback.injectMessage noteOn60 (0 : ℚ)).2
          = [{ callback := testCallback, source := none, message := noteOn60 }] :=
  have h := C1_injectMessage_counts_and_dispatches startedWithCallback testCallback
    noteOn60 (0 : ℚ) rfl rfl (by decide) (by decide)
  ⟨rfl, h.1, h.2⟩

/-- Counterexample to C1 as stated: the adapter is started and has a callback,
its counter holds `INT_MAX`, and after `injectMessage` the counter reads
`INT_MIN`, which is not one more than before. -/
theorem C1_counterexample_counter_at_INT_MAX :
    saturatedWithCallback.isStarted = true
      ∧ saturatedWithCallback.callback = some testCallback
      ∧ saturatedWithCallback.getMessageCount = 2147483647
      ∧ (saturatedWithCallback.injectMessage noteOn60 (0 : ℚ)).1.getMessageCount
          = -2147483648
      ∧ (saturatedWithCallback.injectMessage noteOn60 (0 : ℚ)).1.getMessageCount
          ≠ saturatedWithCallback.getMessageCount + 1 := by
  refine ⟨rfl, rfl, rfl, ?_, ?_⟩ <;> decide

/-- C2: for every adapter that is not started, `injectMessage` with any message
and timestamp is a no-op: no callback is invoked and the adapter (message count,
active flag, callback, identifier) is unchanged. -/
theorem C2_injectMessage_not_started_is_noop (self : MockMidiAdapter)
    (message : MidiMessage) (timestamp : F) (hstopped : self.isStarted = false) :
    (self.injectMessage message timestamp).2 = []
      ∧ (self.injectMessage message timestamp).1.getMessageCount = self.getMessageCount
      ∧ (self.injectMessage message timestamp).1.isStarted = self.isStarted
      ∧ (self.injectMessage message timestamp).1.callback = self.callback
      ∧ (self.injectMessage message timestamp).1.getIdentifier = self.getIdentifier
      ∧ (self.injectMessage message timestamp).1 = self := by
  rw [injectMessage_of_not_started self message timestamp hstopped]
  exact ⟨rfl, rfl, rfl, rfl, rfl, rfl⟩

/-- Witness of C2: the stopped adapter with a callback ignores the note-on. -/
theorem C2_injectMessage_not_started_is_noop_witness :
    stoppedWithCallback.isStarted = false
      ∧ (stoppedWithCallback.injectMessage noteOn60 (0 : ℚ)).2 = []
      ∧ (stoppedWithCallback.injectMessage noteOn60 (0 : ℚ)).1 = stoppedWithCallback :=
  have h := C2_injectMessage_not_started_is_noop stoppedWithCallback noteOn60 (0 : ℚ) rfl
  ⟨rfl, h.1, h.2.2.2.2.2⟩

/-- C3: for every adapter state, with whatever callback invocations were made
before, and every list of `n >= 0` injections, `stop()` followed by the `n`
`injectMessage` calls adds no callback invocation and leaves `getMessageCount()`
at the value it had when `stop()` returned. -/
theorem C3_stop_then_injections_deliver_nothing (w : Session)
    (injections : List (MidiMessage × F)) :
    (w.run (Op.stop :: injections.map fun p => Op.injectMessage p.1 p.2)).invocations
        = w.invocations
      ∧ (w.run (Op.stop :: injections.map fun p => Op.injectMessage p.1 p.2)).adapter.getMessageCount
        = w.adapter.stop.getMessageCount := by
  have hrun : w.run (Op.stop :: injections.map fun p => Op.injectMessage p.1 p.2)
      = (w.step (Op.stop : Op F)).run (injections.map fun p => Op.injectMessage p.1 p.2) := rfl
  rw [hrun, run_injections_of_not_started injections (w.step Op.stop) rfl]
  exact ⟨rfl, rfl⟩

/-- C9 (amended): for every started adapter with no callback registered whose
counter is a 32-bit `int` below `INT_MAX`, `injectMessage` returns, invokes no
callback, and increases `getMessageCount()` by exactly 1. -/
theorem C9_injectMessage_without_callback_counts (self : MockMidiAdapter)
    (message : MidiMessage) (timestamp : F)
    (hstarted : self.isStarted = true) (hcb : self.callback = none)
    (hmin : INT_MIN ≤ self.getMessageCount) (hmax : self.getMessageCount < INT_MAX) :
    (self.injectMessage message timestamp).2 = []
      ∧ (self.injectMessage message timestamp).1.getMessageCount
          = self.getMessageCount + 1 := by
  simp only [isStarted, getMessageCount] at hstarted hmin hmax
  have hwrap : wrapInt32 (self.messageCount + 1) = self.messageCount + 1 :=
    wrapInt32_of_inRange _ (by omega) (by omega)
  simp [injectMessage, getMessageCount, hstarted, hcb, hwrap]

/-- Witness of C9: the started adapter without a callback and one counted
message counts a second one and invokes nothing. -/
theorem C9_injectMessage_without_callback_counts_witness :
    startedWithoutCallback.isStarted = true
      ∧ startedWithoutCallback.callback = none
      ∧ (startedWithoutCallback.injectMessage noteOn60 (0 : ℚ)).2 = []
      ∧ (startedWithoutCallback.injectMessage noteOn60 (0 : ℚ)).1.getMessageCount = 2 :=
  have h := C9_injectMessage_without_callback_counts startedWithoutCallback noteOn60
    (0 : ℚ) rfl rfl (by decide) (by decide)
  ⟨rfl, rfl, h.1, h.2⟩

/-- Counterexample to C9 as stated: the adapter is started and has no callback,
its counter holds `INT_MAX`, and after `injectMessage` the counter reads
`INT_MIN`, which is not one more than before. -/
theorem C9_counterexample_counter_at_INT_MAX :
    saturatedWithoutCallback.isStarted = true
      ∧ saturatedWithoutCallback.callback = none
      ∧ saturatedWithoutCallback.getMessageCount = 2147483647
      ∧ (saturatedWithoutCallback.injectMessage noteOn60 (0 : ℚ)).1.getMessageCount
          = -2147483648
      ∧ (saturatedWithoutCallback.injectMessage noteOn60 (0 : ℚ)).1.getMessageCount
          ≠ saturatedWithoutCallback.getMessageCount + 1 := by
  refine ⟨rfl, rfl, rfl, ?_, ?_⟩ <;> decide

/-! ## Lifecycle -/

/-- C10: for every finite sequence of adapter operations applied to a newly
constructed adapter, `isStarted()` is true if and only if the sequence contains
a `start()` call with no later `stop()` call; it is false on a newly constructed
adapter, true immediately after `start()` and false immediately after `stop()`. -/
theorem C10_isStarted_iff_start_without_later_stop (id : String) (ops : List (Op F)) :
    (((Session.new id).run ops).adapter.isStarted = true ↔ startedWithoutLaterStop ops)
      ∧ (MockMidiAdapter.new id).isStarted = false
      ∧ (∀ self : MockMidiAdapter, self.start.isStarted = true)
      ∧ (∀ self : MockMidiAdapter, self.stop.isStarted = false) := by
  refine ⟨?_, rfl, fun _ => rfl, fun _ => rfl⟩
  have h := run_started_iff ops (Session.new id)
  have hnew : (Session.new id).adapter.started = false := rfl
  simpa [isStarted, hnew] using h

end Adapter

/-! ## Simulated time -/

section SimulatedTimeClaims

open SimulatedTimeProvider

variable {F : Type}

/-- C4: for every provider state with current time `t` and every `delta >= 0`,
`advanceTime(delta)` returns and afterwards `getCurrentTime()` is `t + delta`. -/
theorem C4_advanceTime_adds_delta [LinearOrder F] [Zero F] [Add F]
    (self : SimulatedTimeProvider F) (delta : F) (hdelta : delta ≥ 0) :
    ((advanceTime delta).run self).1 = Except.ok ()
      ∧ ((advanceTime delta).run self).2.getCurrentTime = self.getCurrentTime + delta := by
  rw [advanceTime_run_of_nonneg self delta hdelta]
  exact ⟨rfl, rfl⟩

/-- Witness of C4: advancing the provider at time 0 by 3/2 gives time 3/2. -/
theorem C4_advanceTime_adds_delta_witness :
    ((3 / 2 : ℚ) ≥ 0)
      ∧ ((advanceTime (3 / 2 : ℚ)).run SimulatedTimeProvider.new).2.getCurrentTime = 3 / 2 :=
  have h := C4_advanceTime_adds_delta (SimulatedTimeProvider.new : SimulatedTimeProvider ℚ)
    (3 / 2) (by norm_num)
  ⟨by norm_num, by simpa [SimulatedTimeProvider.new, getCurrentTime] using h.2⟩

/-- C5: for every provider state and every `delta < 0`, `advanceTime(delta)`
stops at its assertion and `getCurrentTime()` is what it was before the call. -/
theorem C5_advanceTime_rejects_negative [LinearOrder F] [Zero F] [Add F]
    (self : SimulatedTimeProvider F) (delta : F) (hdelta : delta < 0) :
    ((advanceTime delta).run self).1 = Except.error AssertionFailure.contractViolation
      ∧ ((advanceTime delta).run self).2.getCurrentTime = self.getCurrentTime := by
  rw [advanceTime_run_of_neg self delta hdelta]
  exact ⟨rfl, rfl⟩

/-- Witness of C5: advancing the provider at time 5 by -1 is rejected and the
time stays 5. -/
theorem C5_advanceTime_rejects_negative_witness :
    ((-1 : ℚ) < 0)
      ∧ ((advanceTime (-1 : ℚ)).run { simulatedTime := 5 }).1
          = Except.error AssertionFailure.contractViolation
      ∧ ((advanceTime (-1 : ℚ)).run { simulatedTime := 5 }).2.getCurrentTime = 5 :=
  have h := C5_advanceTime_rejects_negative ({ simulatedTime := 5 } : SimulatedTimeProvider ℚ)
    (-1) (by norm_num)
  ⟨by norm_num, h.1, h.2⟩

/-- C6: for every provider state and every `value >= 0`, `setTime(value)`
returns and afterwards `getCurrentTime()` is `value`, whatever the time was
before the call. -/
theorem C6_setTime_stores_value [LinearOrder F] [Zero F]
    (self : SimulatedTimeProvider F) (value : F) (hvalue : value ≥ 0) :
    ((setTime value).run self).1 = Except.ok ()
      ∧ ((setTime value).run self).2.getCurrentTime = value := by
  rw [setTime_run_of_nonneg self value hvalue]
  exact ⟨rfl, rfl⟩

/-- Witness of C6: setting the provider at time 3/2 to 42 gives time 42. -/
theorem C6_setTime_stores_value_witness :
    ((42 : ℚ) ≥ 0)
      ∧ ((setTime (42 : ℚ)).run { simulatedTime := 3 / 2 }).2.getCurrentTime = 42 :=
  have h := C6_setTime_stores_value ({ simulatedTime := 3 / 2 } : SimulatedTimeProvider ℚ)
    42 (by norm_num)
  ⟨by norm_num, h.2⟩

/-- C7: for every provider state and every `value < 0`, `setTime(value)` stops
at its assertion and `getCurrentTime()` is what it was before the call. -/
theorem C7_setTime_rejects_negative [LinearOrder F] [Zero F]
    (self : SimulatedTimeProvider F) (value : F) (hvalue : value < 0) :
    ((setTime value).run self).1 = Except.error AssertionFailure.contractViolation
      ∧ ((setTime value).run self).2.getCurrentTime = self.getCurrentTime := by
  rw [setTime_run_of_neg self value hvalue]
  exact ⟨rfl, rfl⟩

/-- Witness of C7: setting the provider at time 5 to -2 is rejected and the time
stays 5. -/
theorem C7_setTime_rejects_negative_witness :
    ((-2 : ℚ) < 0)
      ∧ ((setTime (-2 : ℚ)).run { simulatedTime := 5 }).1
          = Except.error AssertionFailure.contractViolation
      ∧ ((setTime (-2 : ℚ)).run { simulatedTime := 5 }).2.getCurrentTime = 5 :=
  have h := C7_setTime_rejects_negative ({ simulatedTime := 5 } : SimulatedTimeProvider ℚ)
    (-2) (by norm_num)
  ⟨by norm_num, h.1, h.2⟩

/-- C8: for every provider state, `reset()` returns and afterwards
`getCurrentTime()` is 0. -/
theorem C8_reset_returns_to_zero [Zero F] (self : SimulatedTimeProvider F) :
    ((reset : Method (SimulatedTimeProvider F) Unit).run self).1 = Except.ok ()
      ∧ ((reset : Method (SimulatedTimeProvider F) Unit).run self).2.getCurrentTime = 0 := by
  rw [reset_run self]
  exact ⟨rfl, rfl⟩

end SimulatedTimeClaims

/-! ## More properties of MockMidiAdapter -/

section AdapterSequences

open MockMidiAdapter

variable {F : Type}

theorem injectMessage_identifier_eq (self : MockMidiAdapter) (message : MidiMessage)
    (timestamp : F) :
    (self.injectMessage message timestamp).1.identifier = self.identifier := by
  unfold injectMessage
  cases hs : self.started <;> cases hc : self.callback <;> simp [hc, hs]

theorem injectMessage_callback_eq (self : MockMidiAdapter) (message : MidiMessage)
    (timestamp : F) :
    (self.injectMessage message timestamp).1.callback = self.callback := by
  unfold injectMessage
  cases hs : self.started <;> cases hc : self.callback <;> simp [hc, hs]

theorem injectMessage_messageCount_eq (self : MockMidiAdapter) (message : MidiMessage)
    (timestamp : F) :
    (self.injectMessage message timestamp).1.messageCount
      = if self.started then wrapInt32 (self.messageCount + 1) else self.messageCount := by
  unfold injectMessage
  cases hs : self.started <;> cases hc : self.callback <;> simp [hc, hs]

theorem injectMessage_invocations_eq (self : MockMidiAdapter) (message : MidiMessage)
    (timestamp : F) :
    (self.injectMessage message timestamp).2
      = if self.started then
          self.callback.toList.map
            fun c => { callback := c, source := none, message := message }
        else [] := by
  unfold injectMessage
  cases hs : self.started <;> cases hc : self.callback <;> simp [hc, hs]

theorem wrapInt32_succ_ne (x : Int) : wrapInt32 (x + 1) ≠ x := by
  unfold wrapInt32
  omega

theorem wrapInt32_wrapInt32_succ (x : Int) :
    wrapInt32 (wrapInt32 x + 1) = wrapInt32 (x + 1) := by
  unfold wrapInt32
  omega

theorem run_cons (w : Session) (op : Op F) (ops : List (Op F)) :
    w.run (op :: ops) = (w.step op).run ops :=
  rfl

theorem step_identifier_eq (w : Session) (op : Op F) :
    (w.step op).adapter.identifier = w.adapter.identifier := by
  cases op with
  | injectMessage message timestamp =>
    exact injectMessage_identifier_eq w.adapter message timestamp
  | start => rfl
  | stop => rfl
  | isStarted => rfl
  | getIdentifier => rfl
  | setCallback newCallback => rfl
  | getMessageCount => rfl
  | resetMessageCount => rfl

theorem run_identifier_eq (ops : List (Op F)) (w : Session) :
    (w.run ops).adapter.identifier = w.adapter.identifier := by
  induction ops generalizing w with
  | nil => rfl
  | cons op ops ih => rw [run_cons, ih, step_identifier_eq]

theorem step_callback_of_not_setCallback (w : Session) (op : Op F)
    (h : ∀ c, op ≠ Op.setCallback c) :
    (w.step op).adapter.callback = w.adapter.callback := by
  cases op with
  | injectMessage message timestamp =>
    exact injectMessage_callback_eq w.adapter message timestamp
  | setCallback newCallback => exact absurd rfl (h newCallback)
  | start => rfl
  | stop => rfl
  | isStarted => rfl
  | getIdentifier => rfl
  | getMessageCount => rfl
  | resetMessageCount => rfl

theorem step_invocations_targets (w : Session) (op : Op F) :
    ∃ added, (w.step op).invocations = w.invocations ++ added
      ∧ ∀ i ∈ added, some i.callback = w.adapter.callback := by
  cases op with
  | injectMessage message timestamp =>
    refine ⟨(w.adapter.injectMessage message timestamp).2, rfl, ?_⟩
    rw [injectMessage_invocations_eq]
    cases hs : w.adapter.started <;> cases hc : w.adapter.callback <;> simp
  | start => exact ⟨[], by simp [Session.step], by simp⟩
  | stop => exact ⟨[], by simp [Session.step], by simp⟩
  | isStarted => exact ⟨[], by simp [Session.step], by simp⟩
  | getIdentifier => exact ⟨[], by simp [Session.step], by simp⟩
  | setCallback newCallback => exact ⟨[], by simp [Session.step], by simp⟩
  | getMessageCount => exact ⟨[], by simp [Session.step], by simp⟩
  | resetMessageCount => exact ⟨[], by simp [Session.step], by simp⟩

theorem run_callback_of_no_setCallback (ops : List (Op F)) (w : Session)
    (h : ∀ c, Op.setCallback c ∉ ops) :
    (w.run ops).adapter.callback = w.adapter.callback := by
  induction ops generalizing w with
  | nil => rfl
  | cons op ops ih =>
    have hop : ∀ c, op ≠ Op.setCallback c := fun c hc =>
      h c (by simp [hc])
    have hops : ∀ c, Op.setCallback c ∉ ops := fun c hc =>
      h c (List.mem_cons_of_mem _ hc)
    rw [run_cons, ih _ hops, step_callback_of_not_setCallback w op hop]

theorem run_invocations_targets (ops : List (Op F)) (w : Session)
    (h : ∀ c, Op.setCallback c ∉ ops) :
    ∃ added, (w.run ops).invocations = w.invocations ++ added
      ∧ ∀ i ∈ added, some i.callback = w.adapter.callback := by
  induction ops generalizing w with
  | nil => exact ⟨[], by simp [Session.run], by simp⟩
  | cons op ops ih =>
    have hop : ∀ c, op ≠ Op.setCallback c := fun c hc =>
      h c (by simp [hc])
    have hops : ∀ c, Op.setCallback c ∉ ops := fun c hc =>
      h c (List.mem_cons_of_mem _ hc)
    obtain ⟨first, hfirst, htarget⟩ := step_invocations_targets w op
    obtain ⟨more, hmore, hmoreTarget⟩ := ih (w.step op) hops
    rw [step_callback_of_not_setCallback w op hop] at hmoreTarget
    refine ⟨first ++ more, ?_, ?_⟩
    · rw [run_cons, hmore, hfirst, List.append_assoc]
    · intro i hi
      rcases List.mem_append.mp hi with h1 | h2
      · exact htarget i h1
      · exact hmoreTarget i h2

theorem run_messageCount_of_no_reset (ops : List (Op F)) (w : Session) (base : Int)
    (hbase : w.adapter.messageCount = wrapInt32 base)
    (h : Op.resetMessageCount ∉ ops) :
    (w.run ops).adapter.messageCount
      = wrapInt32 (base + activeInjectCalls w.adapter.started ops) := by
  induction ops generalizing w base with
  | nil => simpa [Session.run, activeInjectCalls] using hbase
  | cons op ops ih =>
    have hops : Op.resetMessageCount ∉ ops := fun hc => h (List.mem_cons_of_mem _ hc)
    rw [run_cons]
    cases op with
    | resetMessageCount => exact absurd (List.mem_cons_self _ _) h
    | injectMessage message timestamp =>
      cases hs : w.adapter.started with
      | false =>
        have hstep : w.step (Op.injectMessage message timestamp) = w := by
          simp [Session.step, injectMessage_of_not_started w.adapter message timestamp hs]
        rw [hstep, ih w base hbase hops, hs]
        simp [activeInjectCalls]
      | true =>
        have hcount : (w.step (Op.injectMessage message timestamp)).adapter.messageCount
            = wrapInt32 (base + 1) := by
          show (w.adapter.injectMessage message timestamp).1.messageCount = _
          rw [injectMessage_messageCount_eq, hs, hbase]
          simpa using wrapInt32_wrapInt32_succ base
        have hstarted : (w.step (Op.injectMessage message timestamp)).adapter.started
            = true := by
          show (w.adapter.injectMessage message timestamp).1.started = _
          rw [injectMessage_started_eq, hs]
        rw [ih _ (base + 1) hcount hops, hstarted]
        simp only [activeInjectCalls, if_true]
        congr 1
        push_cast
        ring
    | start => exact ih _ base hbase hops
    | stop => exact ih _ base hbase hops
    | isStarted => exact ih _ base hbase hops
    | getIdentifier => exact ih _ base hbase hops
    | setCallback newCallback => exact ih _ base hbase hops
    | getMessageCount => exact ih _ base hbase hops

/-! ## Lifecycle, callback registration and counting -/

/-- C11: `start()` and `stop()` are idempotent: for every adapter state,
`start(start(s)) = start(s)` and `stop(stop(s)) = stop(s)`, and a redundant call
(`start()` on a started adapter, `stop()` on a stopped one) leaves the whole
state (active flag, message count, callback, identifier) unchanged. -/
theorem C11_start_stop_idempotent (self : MockMidiAdapter) :
    self.start.start = self.start
      ∧ self.stop.stop = self.stop
      ∧ (self.isStarted = true → self.start = self)
      ∧ (self.isStarted = false → self.stop = self) := by
  refine ⟨rfl, rfl, ?_, ?_⟩
  · intro h
    cases self
    simp only [isStarted] at h
    simp [start, h]
  · intro h
    cases self
    simp only [isStarted] at h
    simp [stop, h]

/-- Witness of C11: `start()` on the started adapter and `stop()` on the stopped
adapter return the adapter they were called on. -/
theorem C11_start_stop_idempotent_witness :
    startedWithCallback.isStarted = true
      ∧ startedWithCallback.start = startedWithCallback
      ∧ stoppedWithCallback.isStarted = false
      ∧ stoppedWithCallback.stop = stoppedWithCallback :=
  ⟨rfl, (C11_start_stop_idempotent startedWithCallback).2.2.1 rfl,
    rfl, (C11_start_stop_idempotent stoppedWithCallback).2.2.2 rfl⟩

/-- C12: an adapter holds at most one callback.  `setCallback(c)` invokes no
callback.  After it, as long as `setCallback` is not called again, every
callback invocation the adapter makes targets `c` (so none targets a callback
that `c` replaced, and none is made at all when `c` is null), the registered
callback stays `c`, and an `injectMessage` on the started adapter invokes `c`
once when `c` is not null. -/
theorem C12_setCallback_replaces_callback (w : Session)
    (newCallback : Option MidiInputCallback) (ops : List (Op F))
    (hops : ∀ c, Op.setCallback c ∉ ops) :
    (w.step (Op.setCallback newCallback : Op F)).invocations = w.invocations
      ∧ (∃ added,
          ((w.step (Op.setCallback newCallback : Op F)).run ops).invocations
              = w.invocations ++ added
            ∧ (∀ i ∈ added, some i.callback = newCallback)
            ∧ (∀ old, some old ≠ newCallback → ∀ i ∈ added, i.callback ≠ old)
            ∧ (newCallback = none → added = []))
      ∧ ((w.step (Op.setCallback newCallback : Op F)).run ops).adapter.callback = newCallback
      ∧ (∀ (message : MidiMessage) (timestamp : F),
          ((w.step (Op.setCallback newCallback : Op F)).run ops).adapter.isStarted = true →
          (((w.step (Op.setCallback newCallback : Op F)).run ops).adapter.injectMessage
              message timestamp).2
            = newCallback.toList.map
                fun c => { callback := c, source := none, message := message }) := by
  have hcb : ((w.step (Op.setCallback newCallback : Op F)).run ops).adapter.callback
      = newCallback := by
    rw [run_callback_of_no_setCallback ops _ hops]
    rfl
  refine ⟨rfl, ?_, hcb, ?_⟩
  · obtain ⟨added, hadded, htarget⟩ :=
      run_invocations_targets ops (w.step (Op.setCallback newCallback : Op F)) hops
    have htarget2 : ∀ i ∈ added, some i.callback = newCallback := htarget
    refine ⟨added, hadded, htarget2, ?_, ?_⟩
    · intro old hold i hi heq
      exact hold (heq ▸ htarget2 i hi)
    · intro hnone
      cases added with
      | nil => rfl
      | cons i rest =>
        have := htarget2 i (List.mem_cons_self _ _)
        rw [hnone] at this
        exact absurd this (by simp)
  · intro message timestamp hstarted
    simp only [isStarted] at hstarted
    rw [injectMessage_invocations_eq, hstarted, hcb]
    rfl

/-- Witness of C12: the started adapter whose callback `testCallback` is
replaced by `otherCallback` and then receives a note-on keeps `otherCallback`,
and a further note-on invokes `otherCallback` once and nothing else. -/
theorem C12_setCallback_replaces_callback_witness :
    (∀ c, Op.setCallback c ∉ [Op.injectMessage noteOn60 (0 : ℚ)])
      ∧ ((({ adapter := startedWithCallback, invocations := [] } : Session).step
            (Op.setCallback (some otherCallback) : Op ℚ)).run
              [Op.injectMessage noteOn60 (0 : ℚ)]).adapter.callback
          = some otherCallback
      ∧ (((({ adapter := startedWithCallback, invocations := [] } : Session).step
            (Op.setCallback (some otherCallback) : Op ℚ)).run
              [Op.injectMessage noteOn60 (0 : ℚ)]).adapter.injectMessage
                noteOn60 (1 : ℚ)).2
          = [{ callback := otherCallback, source := none, message := noteOn60 }] :=
  have hops : ∀ c, Op.setCallback c ∉ [Op.injectMessage noteOn60 (0 : ℚ)] := by
    intro c
    simp
  have h := C12_setCallback_replaces_callback
    ({ adapter := startedWithCallback, invocations := [] } : Session)
    (some otherCallback) [Op.injectMessage noteOn60 (0 : ℚ)] hops
  ⟨hops, h.2.2.1, h.2.2.2 noteOn60 1 rfl⟩

/-- C13: the timestamp argument of `injectMessage` has no effect: for every
adapter state, every message and every two timestamps, the two calls give the
same adapter state and the same callback invocations. -/
theorem C13_injectMessage_ignores_timestamp (self : MockMidiAdapter)
    (message : MidiMessage) (t1 t2 : F) :
    self.injectMessage message t1 = self.injectMessage message t2 :=
  rfl

/-- C14 (amended): for every sequence of calls without `resetMessageCount` on a
newly constructed adapter, in which at most `INT_MAX` `injectMessage` calls are
made while the adapter is started, `getMessageCount()` equals the number of
`injectMessage` calls made while the adapter was started. -/
theorem C14_messageCount_counts_active_injections (id : String) (ops : List (Op F))
    (hreset : Op.resetMessageCount ∉ ops)
    (hbound : (activeInjectCalls false ops : Int) ≤ INT_MAX) :
    ((Session.new id).run ops).adapter.getMessageCount
      = (activeInjectCalls false ops : Int) := by
  have h0 : (Session.new id).adapter.messageCount = wrapInt32 0 := rfl
  have h := run_messageCount_of_no_reset ops (Session.new id) 0 h0 hreset
  have hstarted : (Session.new id).adapter.started = false := rfl
  rw [hstarted, zero_add] at h
  rw [getMessageCount, h]
  exact wrapInt32_of_inRange _ (by unfold INT_MIN; omega) hbound

/-- Witness of C14: of three injections, the two made between `start()` and
`stop()` or after the second `start()` are counted. -/
theorem C14_messageCount_counts_active_injections_witness :
    Op.resetMessageCount ∉
        [Op.start, Op.injectMessage noteOn60 (0 : ℚ), Op.stop,
          Op.injectMessage noteOn60 1, Op.start, Op.injectMessage noteOn60 2]
      ∧ ((Session.new "TestDevice").run
          [Op.start, Op.injectMessage noteOn60 (0 : ℚ), Op.stop,
            Op.injectMessage noteOn60 1, Op.start,
            Op.injectMessage noteOn60 2]).adapter.getMessageCount = 2 :=
  have hreset : Op.resetMessageCount ∉
      [Op.start, Op.injectMessage noteOn60 (0 : ℚ), Op.stop,
        Op.injectMessage noteOn60 1, Op.start, Op.injectMessage noteOn60 2] := by
    simp
  ⟨hreset, C14_messageCount_counts_active_injections "TestDevice" _ hreset (by decide)⟩

/-- Counterexample to C14 as stated: one `injectMessage` call on a newly
constructed adapter that was never started; the sequence contains one
`injectMessage` call and `getMessageCount()` is 0. -/
theorem C14_counterexample_injection_before_start :
    injectCalls [Op.injectMessage noteOn60 (0 : ℚ)] = 1
      ∧ ((Session.new "TestDevice").run
          [Op.injectMessage noteOn60 (0 : ℚ)]).adapter.getMessageCount = 0
      ∧ ((Session.new "TestDevice").run
          [Op.injectMessage noteOn60 (0 : ℚ)]).adapter.getMessageCount
          ≠ (injectCalls [Op.injectMessage noteOn60 (0 : ℚ)] : Int) := by
  refine ⟨rfl, rfl, ?_⟩
  decide

/-- C15 (amended): for every adapter state whose `getMessageCount()` is below
`INT_MAX` and every single operation other than `resetMessageCount`,
`getMessageCount()` after the operation is at least its value before, and it is
strictly greater only when the operation is `injectMessage` and the adapter was
started when it was called. -/
theorem C15_messageCount_monotone (w : Session) (op : Op F)
    (hop : op ≠ Op.resetMessageCount) (hmax : w.adapter.getMessageCount < INT_MAX) :
    (w.step op).adapter.getMessageCount ≥ w.adapter.getMessageCount
      ∧ ((w.step op).adapter.getMessageCount > w.adapter.getMessageCount →
          op.isInjectMessage = true ∧ w.adapter.isStarted = true) := by
  simp only [getMessageCount, isStarted] at *
  cases op with
  | resetMessageCount => exact absurd rfl hop
  | injectMessage message timestamp =>
    have hcount : (w.step (Op.injectMessage message timestamp)).adapter.messageCount
        = if w.adapter.started then wrapInt32 (w.adapter.messageCount + 1)
          else w.adapter.messageCount :=
      injectMessage_messageCount_eq w.adapter message timestamp
    rw [hcount]
    cases hs : w.adapter.started with
    | false => simp
    | true =>
      simp only [if_true, Op.isInjectMessage, and_self, implies_true, and_true]
      unfold wrapInt32
      unfold INT_MAX at hmax
      omega
  | start => exact ⟨le_refl _, fun h => absurd h (lt_irrefl _)⟩
  | stop => exact ⟨le_refl _, fun h => absurd h (lt_irrefl _)⟩
  | isStarted => exact ⟨le_refl _, fun h => absurd h (lt_irrefl _)⟩
  | getIdentifier => exact ⟨le_refl _, fun h => absurd h (lt_irrefl _)⟩
  | setCallback newCallback => exact ⟨le_refl _, fun h => absurd h (lt_irrefl _)⟩
  | getMessageCount => exact ⟨le_refl _, fun h => absurd h (lt_irrefl _)⟩

/-- Witness of C15: an injection into the started adapter that has counted one
message leaves a count of at least 1. -/
theorem C15_messageCount_monotone_witness :
    (Op.injectMessage noteOn60 (0 : ℚ)) ≠ Op.resetMessageCount
      ∧ startedWithCallback.getMessageCount < INT_MAX
      ∧ (({ adapter := startedWithCallback, invocations := [] } : Session).step
          (Op.injectMessage noteOn60 (0 : ℚ))).adapter.getMessageCount
          ≥ startedWithCallback.getMessageCount :=
  have hop : (Op.injectMessage noteOn60 (0 : ℚ)) ≠ Op.resetMessageCount := by
    intro h
    cases h
  have hmax : startedWithCallback.getMessageCount < INT_MAX := by decide
  ⟨hop, hmax, (C15_messageCount_monotone
    ({ adapter := startedWithCallback, invocations := [] } : Session)
    (Op.injectMessage noteOn60 (0 : ℚ)) hop hmax).1⟩

/-- Counterexample to C15 as stated: the operation is `injectMessage`, not
`resetMessageCount`, the adapter is started with its counter at `INT_MAX`, and
`getMessageCount()` after the operation is below its value before. -/
theorem C15_counterexample_counter_at_INT_MAX :
    (Op.injectMessage noteOn60 (0 : ℚ)) ≠ Op.resetMessageCount
      ∧ (({ adapter := saturatedWithCallback, invocations := [] } : Session).step
          (Op.injectMessage noteOn60 (0 : ℚ))).adapter.getMessageCount
          < saturatedWithCallback.getMessageCount := by
  refine ⟨?_, ?_⟩
  · intro h
    cases h
  · decide

/-- C16: the identifier is immutable: for every identifier `id` and every finite
sequence of calls applied to an adapter constructed with `id`,
`getIdentifier()` returns `id`; an adapter constructed with no argument returns
"MockMIDIDevice". -/
theorem C16_identifier_immutable (id : String) (ops : List (Op F)) :
    ((Session.new id).run ops).adapter.getIdentifier = id
      ∧ (MockMidiAdapter.new id).getIdentifier = id
      ∧ MockMidiAdapter.newDefault.getIdentifier = "MockMIDIDevice" := by
  refine ⟨?_, rfl, rfl⟩
  rw [getIdentifier, run_identifier_eq]
  rfl

/-- C17: for every adapter state, `resetMessageCount()` makes
`getMessageCount()` return 0, leaves the active flag, the registered callback
and the identifier unchanged, and invokes no callback. -/
theorem C17_resetMessageCount_frame (w : Session) :
    w.adapter.resetMessageCount.getMessageCount = 0
      ∧ w.adapter.resetMessageCount.isStarted = w.adapter.isStarted
      ∧ w.adapter.resetMessageCount.callback = w.adapter.callback
      ∧ w.adapter.resetMessageCount.getIdentifier = w.adapter.getIdentifier
      ∧ (w.step (Op.resetMessageCount : Op F)).adapter = w.adapter.resetMessageCount
      ∧ (w.step (Op.resetMessageCount : Op F)).invocations = w.invocations :=
  ⟨rfl, rfl, rfl, rfl, rfl, rfl⟩

/-- C20 (amended): the adapter does not inspect the timestamp: for every adapter
state, message and timestamp, negative ones included, an `injectMessage` call is
delivered (changes the message count or invokes the callback) if and only if
the adapter is started. -/
theorem C20_delivery_iff_started (self : MockMidiAdapter) (message : MidiMessage)
    (timestamp : F) :
    delivered self (self.injectMessage message timestamp) ↔ self.isStarted = true := by
  unfold delivered
  simp only [getMessageCount, isStarted]
  rw [injectMessage_messageCount_eq]
  cases hs : self.started with
  | false =>
    simp [injectMessage_of_not_started self message timestamp hs]
  | true =>
    simp only [if_true, iff_true]
    exact Or.inl (wrapInt32_succ_ne _)

/-- Counterexample to C20 as stated: an `injectMessage` call with timestamp -1
on the started adapter is delivered: the count goes from 1 to 2 and the callback
is invoked. -/
theorem C20_counterexample_negative_timestamp_delivered :
    ¬ ((-1 : ℚ) ≥ 0)
      ∧ delivered startedWithCallback (startedWithCallback.injectMessage noteOn60 (-1 : ℚ))
      ∧ startedWithCallback.getMessageCount = 1
      ∧ (startedWithCallback.injectMessage noteOn60 (-1 : ℚ)).1.getMessageCount = 2
      ∧ (startedWithCallback.injectMessage noteOn60 (-1 : ℚ)).2
          = [{ callback := testCallback, source := none, message := noteOn60 }] := by
  refine ⟨by norm_num, Or.inr ?_, rfl, ?_, ?_⟩ <;> decide

end AdapterSequences

/-! ## Reachable states of the simulated clock -/

section SimulatedTimeSequences

open SimulatedTimeProvider

variable {F : Type}

theorem step_time_nonneg [LinearOrderedAddCommMonoid F] (self : SimulatedTimeProvider F)
    (op : TimeOp F) (h : 0 ≤ self.simulatedTime) :
    0 ≤ (self.step op).simulatedTime := by
  cases op with
  | getCurrentTime => exact h
  | advanceTime seconds =>
    show 0 ≤ ((advanceTime seconds).run self).2.simulatedTime
    rcases le_or_lt 0 seconds with hs | hs
    · rw [advanceTime_run_of_nonneg self seconds hs]
      exact add_nonneg h hs
    · rw [advanceTime_run_of_neg self seconds hs]
      exact h
  | reset =>
    show 0 ≤ ((reset : Method (SimulatedTimeProvider F) Unit).run self).2.simulatedTime
    rw [reset_run]
  | setTime newTime =>
    show 0 ≤ ((setTime newTime).run self).2.simulatedTime
    rcases le_or_lt 0 newTime with hs | hs
    · rw [setTime_run_of_nonneg self newTime hs]
      exact hs
    · rw [setTime_run_of_neg self newTime hs]
      exact h

theorem runOps_time_nonneg [LinearOrderedAddCommMonoid F] (ops : List (TimeOp F))
    (self : SimulatedTimeProvider F) (h : 0 ≤ self.simulatedTime) :
    0 ≤ (self.runOps ops).simulatedTime := by
  induction ops generalizing self with
  | nil => exact h
  | cons op ops ih => exact ih (self.step op) (step_time_nonneg self op h)

/-- C18: simulated time is never negative: in every state reached from a newly
constructed provider by a finite sequence of `advanceTime`, `setTime` and
`reset` calls with arbitrary arguments, `getCurrentTime() >= 0`. -/
theorem C18_time_never_negative [LinearOrderedAddCommMonoid F] (ops : List (TimeOp F)) :
    ((SimulatedTimeProvider.new : SimulatedTimeProvider F).runOps ops).getCurrentTime ≥ 0 :=
  runOps_time_nonneg ops SimulatedTimeProvider.new (le_refl 0)

/-- C19: a newly constructed provider reports `getCurrentTime() == 0.0` before
any `advanceTime`, `setTime` or `reset` call. -/
theorem C19_new_provider_at_zero [LinearOrder F] [Zero F] [Add F] :
    (SimulatedTimeProvider.new : SimulatedTimeProvider F).getCurrentTime = 0
      ∧ ((SimulatedTimeProvider.new : SimulatedTimeProvider F).runOps []).getCurrentTime = 0 :=
  ⟨rfl, rfl⟩

end SimulatedTimeSequences

/-! ## Order of the increment and the dispatch -/

section Dispatch

open MockMidiAdapter

variable {F : Type}

theorem injectMessageWith_recordInvocation (self : MockMidiAdapter) (message : MidiMessage)
    (timestamp : F) :
    self.injectMessageWith recordInvocation message timestamp
      = self.injectMessage message timestamp := by
  unfold injectMessageWith injectMessage recordInvocation
  cases hs : self.started <;> cases hc : self.callback <;> simp [hc]

theorem injectMessageWith_adapter_eq {α : Type}
    (handler : MidiInputCallback → Option MidiInput → MidiMessage → MockMidiAdapter → α)
    (self : MockMidiAdapter) (message : MidiMessage) (timestamp : F) :
    (self.injectMessageWith handler message timestamp).1
      = (self.injectMessage message timestamp).1 := by
  unfold injectMessageWith injectMessage
  cases hs : self.started <;> cases hc : self.callback <;> simp [hc]

/-- C22 (amended): in an `injectMessage` call on a started adapter with a
registered callback whose counter is a 32-bit `int` below `INT_MAX`, the counter
is incremented before the callback is invoked: a callback that reads
`getMessageCount()` during its invocation observes the pre-call count plus 1,
which is also the count after the call. -/
theorem C22_callback_observes_incremented_count (self : MockMidiAdapter)
    (cb : MidiInputCallback) (message : MidiMessage) (timestamp : F)
    (hstarted : self.isStarted = true) (hcb : self.callback = some cb)
    (hmin : INT_MIN ≤ self.getMessageCount) (hmax : self.getMessageCount < INT_MAX) :
    (self.injectMessageWith readMessageCount message timestamp).2
        = [self.getMessageCount + 1]
      ∧ (self.injectMessageWith readMessageCount message timestamp).1.getMessageCount
        = self.getMessageCount + 1 := by
  simp only [isStarted, getMessageCount] at hstarted hmin hmax
  have hwrap : wrapInt32 (self.messageCount + 1) = self.messageCount + 1 :=
    wrapInt32_of_inRange _ (by omega) (by omega)
  simp [injectMessageWith, readMessageCount, getMessageCount, hstarted, hcb, hwrap]

/-- Witness of C22: on the started adapter that has counted one message the
callback reads a count of 2. -/
theorem C22_callback_observes_incremented_count_witness :
    startedWithCallback.isStarted = true
      ∧ startedWithCallback.getMessageCount = 1
      ∧ (startedWithCallback.injectMessageWith readMessageCount noteOn60 (0 : ℚ)).2 = [2] :=
  ⟨rfl, rfl, (C22_callback_observes_incremented_count startedWithCallback testCallback
    noteOn60 (0 : ℚ) rfl rfl (by decide) (by decide)).1⟩

/-- Counterexample to C22 as stated: on the started adapter with a callback
whose counter holds `INT_MAX`, the callback reads `INT_MIN` during its
invocation, not the pre-call count plus 1. -/
theorem C22_counterexample_counter_at_INT_MAX :
    saturatedWithCallback.isStarted = true
      ∧ saturatedWithCallback.callback = some testCallback
      ∧ saturatedWithCallback.getMessageCount = 2147483647
      ∧ (saturatedWithCallback.injectMessageWith readMessageCount noteOn60 (0 : ℚ)).2
          = [-2147483648]
      ∧ (saturatedWithCallback.injectMessageWith readMessageCount noteOn60 (0 : ℚ)).2
          ≠ [saturatedWithCallback.getMessageCount + 1] := by
  refine ⟨rfl, rfl, rfl, ?_, ?_⟩ <;> decide

/-- C24: `start()` and `stop()` change only the active flag: for every adapter
state the message count, the registered callback and the identifier are the
same after the call as before, so the count survives a `stop()`/`start()` cycle
and the callback registered before `stop()` is the one an injection invokes
after a later `start()`. -/
theorem C24_start_stop_frame (self : MockMidiAdapter) (message : MidiMessage)
    (timestamp : F) :
    self.start.getMessageCount = self.getMessageCount
      ∧ self.start.callback = self.callback
      ∧ self.start.getIdentifier = self.getIdentifier
      ∧ self.stop.getMessageCount = self.getMessageCount
      ∧ self.stop.callback = self.callback
      ∧ self.stop.getIdentifier = self.getIdentifier
      ∧ self.stop.start.getMessageCount = self.getMessageCount
      ∧ self.stop.start.callback = self.callback
      ∧ (self.stop.start.injectMessage message timestamp).2
          = self.callback.toList.map
              fun c => { callback := c, source := none, message := message } := by
  refine ⟨rfl, rfl, rfl, rfl, rfl, rfl, rfl, rfl, ?_⟩
  rw [injectMessage_invocations_eq]
  rfl

end Dispatch

/-! ## Counts over whole sequences -/

section Counting

open MockMidiAdapter

variable {F : Type}

theorem run_messageCount_counted (ops : List (Op F)) (w : Session) (base : Nat)
    (hbase : w.adapter.messageCount = wrapInt32 base) :
    (w.run ops).adapter.messageCount
      = wrapInt32 (countedInjectCalls w.adapter.started base ops) := by
  induction ops generalizing w base with
  | nil => simpa [Session.run, countedInjectCalls] using hbase
  | cons op ops ih =>
    rw [run_cons]
    cases op with
    | resetMessageCount => exact ih (w.step Op.resetMessageCount) 0 rfl
    | injectMessage message timestamp =>
      cases hs : w.adapter.started with
      | false =>
        have hstep : w.step (Op.injectMessage message timestamp) = w := by
          simp [Session.step, injectMessage_of_not_started w.adapter message timestamp hs]
        rw [hstep, ih w base hbase, hs]
        simp [countedInjectCalls]
      | true =>
        have hcount : (w.step (Op.injectMessage message timestamp)).adapter.messageCount
            = wrapInt32 ((base + 1 : Nat) : Int) := by
          show (w.adapter.injectMessage message timestamp).1.messageCount = _
          rw [injectMessage_messageCount_eq, hs, hbase]
          simpa using wrapInt32_wrapInt32_succ base
        have hstarted : (w.step (Op.injectMessage message timestamp)).adapter.started
            = true := by
          show (w.adapter.injectMessage message timestamp).1.started = _
          rw [injectMessage_started_eq, hs]
        rw [ih _ (base + 1) hcount, hstarted]
        simp [countedInjectCalls]
    | start => exact ih _ base hbase
    | stop => exact ih _ base hbase
    | isStarted => exact ih _ base hbase
    | getIdentifier => exact ih _ base hbase
    | setCallback newCallback => exact ih _ base hbase
    | getMessageCount => exact ih _ base hbase

theorem run_invocations_length (ops : List (Op F)) (w : Session) :
    (w.run ops).invocations.length
      = w.invocations.length
          + dispatchedInjectCalls w.adapter.started w.adapter.callback ops := by
  induction ops generalizing w with
  | nil => simp [Session.run, dispatchedInjectCalls]
  | cons op ops ih =>
    rw [run_cons, ih]
    cases op with
    | injectMessage message timestamp =>
      have hstarted : (w.step (Op.injectMessage message timestamp)).adapter.started
          = w.adapter.started := injectMessage_started_eq w.adapter message timestamp
      have hcallback : (w.step (Op.injectMessage message timestamp)).adapter.callback
          = w.adapter.callback := injectMessage_callback_eq w.adapter message timestamp
      have hlen : (w.step (Op.injectMessage message timestamp)).invocations.length
          = w.invocations.length
              + (if w.adapter.started && w.adapter.callback.isSome then 1 else 0) := by
        show (w.invocations ++ (w.adapter.injectMessage message timestamp).2).length = _
        rw [injectMessage_invocations_eq]
        cases hs : w.adapter.started <;> cases hc : w.adapter.callback <;> simp
      rw [hstarted, hcallback, hlen]
      simp only [dispatchedInjectCalls]
      omega
    | start => rfl
    | stop => rfl
    | isStarted => rfl
    | getIdentifier => rfl
    | setCallback newCallback => rfl
    | getMessageCount => rfl
    | resetMessageCount => rfl

theorem countedInjectCalls_start (started : Bool) (count : Nat) (ops : List (Op F)) :
    countedInjectCalls started count (Op.start :: ops) = countedInjectCalls true count ops :=
  rfl

theorem countedInjectCalls_replicate_injectMessage (message : MidiMessage) (timestamp : F)
    (k count : Nat) :
    countedInjectCalls true count (List.replicate k (Op.injectMessage message timestamp))
      = count + k := by
  induction k generalizing count with
  | zero => simp [countedInjectCalls]
  | succ k ih =>
    simp only [List.replicate_succ, countedInjectCalls, if_true]
    rw [ih]
    omega

/-- C23 (amended): for every finite sequence of calls on a newly constructed
adapter (with callbacks that do not call back into the adapter), the total
number of callback invocations equals the number of `injectMessage` calls made
while the adapter was active and a non-null callback was registered; and when
at most `INT_MAX` `injectMessage` calls were made while the adapter was active
since the most recent `resetMessageCount` (or since construction),
`getMessageCount()` equals their number. -/
theorem C23_counts_over_sequences (id : String) (ops : List (Op F)) :
    ((Session.new id).run ops).invocations.length = dispatchedInjectCalls false none ops
      ∧ ((countedInjectCalls false 0 ops : Int) ≤ INT_MAX →
          ((Session.new id).run ops).adapter.getMessageCount
            = (countedInjectCalls false 0 ops : Int)) := by
  constructor
  · have h := run_invocations_length ops (Session.new id)
    simpa [Session.new, MockMidiAdapter.new] using h
  · intro hbound
    have h0 : (Session.new id).adapter.messageCount = wrapInt32 ((0 : Nat) : Int) := rfl
    have h := run_messageCount_counted ops (Session.new id) 0 h0
    have hstarted : (Session.new id).adapter.started = false := rfl
    rw [hstarted] at h
    rw [getMessageCount, h]
    exact wrapInt32_of_inRange _ (by unfold INT_MIN; omega) hbound

/-- Witness of C23: a sequence with five injections, of which two are made
while active after the reset and two while active with a callback. -/
theorem C23_counts_over_sequences_witness :
    ((Session.new "TestDevice").run
        [Op.injectMessage noteOn60 (0 : ℚ), Op.start, Op.setCallback (some testCallback),
          Op.injectMessage noteOn60 1, Op.resetMessageCount, Op.injectMessage noteOn60 2,
          Op.stop, Op.injectMessage noteOn60 3, Op.setCallback none, Op.start,
          Op.injectMessage noteOn60 4]).invocations.length = 2
      ∧ ((Session.new "TestDevice").run
        [Op.injectMessage noteOn60 (0 : ℚ), Op.start, Op.setCallback (some testCallback),
          Op.injectMessage noteOn60 1, Op.resetMessageCount, Op.injectMessage noteOn60 2,
          Op.stop, Op.injectMessage noteOn60 3, Op.setCallback none, Op.start,
          Op.injectMessage noteOn60 4]).adapter.getMessageCount = 2 :=
  have h := C23_counts_over_sequences "TestDevice"
    [Op.injectMessage noteOn60 (0 : ℚ), Op.start, Op.setCallback (some testCallback),
      Op.injectMessage noteOn60 1, Op.resetMessageCount, Op.injectMessage noteOn60 2,
      Op.stop, Op.injectMessage noteOn60 3, Op.setCallback none, Op.start,
      Op.injectMessage noteOn60 4]
  ⟨h.1, h.2 (by decide)⟩

/-- Counterexample to C23 as stated: `start()` followed by 2147483648
`injectMessage` calls on a newly constructed adapter; 2147483648 calls were
made while active and `getMessageCount()` is -2147483648. -/
theorem C23_counterexample_counter_wraps :
    countedInjectCalls false 0
        (Op.start :: List.replicate 2147483648 (Op.injectMessage noteOn60 (0 : ℚ)))
        = 2147483648
      ∧ ((Session.new "TestDevice").run
          (Op.start :: List.replicate 2147483648
            (Op.injectMessage noteOn60 (0 : ℚ)))).adapter.getMessageCount
          = -2147483648 := by
  have hcounted : countedInjectCalls false 0
      (Op.start :: List.replicate 2147483648 (Op.injectMessage noteOn60 (0 : ℚ)))
      = 2147483648 := by
    rw [countedInjectCalls_start, countedInjectCalls_replicate_injectMessage]
  refine ⟨hcounted, ?_⟩
  have h0 : (Session.new "TestDevice").adapter.messageCount
      = wrapInt32 ((0 : Nat) : Int) := rfl
  have h := run_messageCount_counted
    (Op.start :: List.replicate 2147483648 (Op.injectMessage noteOn60 (0 : ℚ)))
    (Session.new "TestDevice") 0 h0
  have hstarted : (Session.new "TestDevice").adapter.started = false := rfl
  rw [hstarted, hcounted] at h
  rw [getMessageCount, h]
  decide

end Counting

/-! ## Additivity of the simulated clock -/

section SimulatedTimeAdditivity

open SimulatedTimeProvider

variable {F : Type}

/-- C25: over exact arithmetic `advanceTime` is additive: for every provider
state and all `a, b >= 0`, `advanceTime(a)` followed by `advanceTime(b)` leaves
the same `getCurrentTime()` as a single `advanceTime(a + b)`, and
`advanceTime(0)` leaves `getCurrentTime()` unchanged. -/
theorem C25_advanceTime_additive [LinearOrderedAddCommMonoid F]
    (self : SimulatedTimeProvider F) (a b : F) (ha : a ≥ 0) (hb : b ≥ 0) :
    ((advanceTime b).run ((advanceTime a).run self).2).2.getCurrentTime
        = ((advanceTime (a + b)).run self).2.getCurrentTime
      ∧ ((advanceTime (0 : F)).run self).2.getCurrentTime = self.getCurrentTime := by
  rw [advanceTime_run_of_nonneg self a ha, advanceTime_run_of_nonneg _ b hb,
    advanceTime_run_of_nonneg self (a + b) (add_nonneg ha hb),
    advanceTime_run_of_nonneg self 0 (le_refl 0)]
  simp only [getCurrentTime]
  exact ⟨add_assoc _ _ _, add_zero _⟩

/-- Witness of C25: from time 1, advancing by 1/2 and then by 1/4 gives the
time that advancing by 3/4 gives. -/
theorem C25_advanceTime_additive_witness :
    ((1 / 2 : ℚ) ≥ 0) ∧ ((1 / 4 : ℚ) ≥ 0)
      ∧ ((advanceTime (1 / 4 : ℚ)).run
            ((advanceTime (1 / 2 : ℚ)).run { simulatedTime := 1 }).2).2.getCurrentTime
          = ((advanceTime (1 / 2 + 1 / 4 : ℚ)).run { simulatedTime := 1 }).2.getCurrentTime :=
  have ha : (1 / 2 : ℚ) ≥ 0 := by norm_num
  have hb : (1 / 4 : ℚ) ≥ 0 := by norm_num
  ⟨ha, hb, (C25_advanceTime_additive ({ simulatedTime := 1 } : SimulatedTimeProvider ℚ)
    (1 / 2) (1 / 4) ha hb).1⟩

end SimulatedTimeAdditivity

/-! ## Exit code of the test runner -/

section TestRunner

theorem countFailedResults_foldl (results : List TestResult) (acc : Int)
    (hacc : 0 ≤ acc) (hlen : acc + results.length ≤ INT_MAX) :
    results.foldl
        (fun numFailures result =>
          if result.failures > 0 then wrapInt32 (numFailures + 1) else numFailures)
        acc
      = acc + ((results.filter fun r => decide (r.failures > 0)).length : Int) := by
  induction results generalizing acc with
  | nil => simp
  | cons r rs ih =>
    simp only [List.length_cons, Nat.cast_add, Nat.cast_one] at hlen
    simp only [List.foldl_cons]
    by_cases hr : r.failures > 0
    · have hwrap : wrapInt32 (acc + 1) = acc + 1 :=
        wrapInt32_of_inRange _ (by unfold INT_MIN; omega) (by omega)
      rw [if_pos hr, hwrap, ih (acc + 1) (by omega) (by omega)]
      simp only [List.filter_cons, hr, decide_True, if_true, List.length_cons,
        Nat.cast_add, Nat.cast_one]
      omega
    · rw [if_neg hr, ih acc hacc (by omega)]
      simp [List.filter_cons, hr]

theorem countFailedResults_pos_iff (results : List TestResult)
    (hlen : (results.length : Int) ≤ INT_MAX) :
    countFailedResults results > 0 ↔ ∃ r ∈ results, r.failures > 0 := by
  unfold countFailedResults
  rw [countFailedResults_foldl results 0 (le_refl 0) (by omega), zero_add]
  constructor
  · intro h
    have hpos : 0 < (results.filter fun r => decide (r.failures > 0)).length := by
      exact_mod_cast h
    obtain ⟨r, hr⟩ := List.exists_mem_of_length_pos hpos
    rw [List.mem_filter] at hr
    exact ⟨r, hr.1, by simpa using hr.2⟩
  · rintro ⟨r, hmem, hr⟩
    have hin : r ∈ results.filter fun r => decide (r.failures > 0) := by
      rw [List.mem_filter]
      exact ⟨hmem, by simpa using hr⟩
    have hpos : 0 < (results.filter fun r => decide (r.failures > 0)).length :=
      List.length_pos_of_mem hin
    exact_mod_cast hpos

/-- C26: for every result list the runner can report (its length is an `int`),
`main` returns 1 if and only if at least one result has `failures > 0`, and 0
otherwise, also when there are no results; the value depends only on whether
some result failed. -/
theorem C26_main_exit_code (results : List TestResult)
    (hlen : (results.length : Int) ≤ INT_MAX) :
    (main results = 1 ↔ ∃ r ∈ results, r.failures > 0)
      ∧ (main results = 0 ↔ ¬ ∃ r ∈ results, r.failures > 0)
      ∧ main [] = 0 := by
  have h := countFailedResults_pos_iff results hlen
  refine ⟨?_, ?_, rfl⟩
  · unfold main
    rw [← h]
    by_cases hc : countFailedResults results > 0 <;> simp [hc]
  · unfold main
    rw [← h]
    by_cases hc : countFailedResults results > 0 <;> simp [hc]

/-- Witness of C26: of three results the second has 3 failures and the third 1;
`main` returns 1. -/
theorem C26_main_exit_code_witness :
    (([{ failures := 0 }, { failures := 3 }, { failures := 1 }] :
        List TestResult).length : Int) ≤ INT_MAX
      ∧ (main [{ failures := 0 }, { failures := 3 }, { failures := 1 }] = 1
          ↔ ∃ r ∈ ([{ failures := 0 }, { failures := 3 }, { failures := 1 }] :
              List TestResult), r.failures > 0)
      ∧ main [{ failures := 0 }, { failures := 3 }, { failures := 1 }] = 1 :=
  have hlen : (([{ failures := 0 }, { failures := 3 }, { failures := 1 }] :
      List TestResult).length : Int) ≤ INT_MAX := by decide
  ⟨hlen, (C26_main_exit_code _ hlen).1, by decide⟩

end TestRunner

end showmidi
